import Mathlib

/-
Verification of the rate-limit coordination core of the discord-api-proxy
repository.  The Rust sources are shallowly embedded: strings are Lean
`String`s manipulated through their character lists, machine integers are
`Nat` with explicit `% 2^w` where wrap-around matters, fallible operations
(Rust `Result`, panics) are `Except`, and the redis Lua scripts are pure
functions on an explicit store state.
-/

namespace DiscordProxy

/-- Modulus of 64-bit unsigned integers. -/
def U64 : Nat := 2 ^ 64

/-- Modulus of 128-bit unsigned integers. -/
def U128 : Nat := 2 ^ 128

/-- The left-brace character (U+007B), written numerically. -/
def lbrace : Char := Char.ofNat 123

/-- The right-brace character (U+007D), written numerically. -/
def rbrace : Char := Char.ofNat 125

/-- Helper for `rustSplit`: walks the characters, cutting at the separator. -/
def splitCharAux (sep : Char) : List Char → List Char → List (List Char)
  | [], acc => [acc.reverse]
  | c :: rest, acc =>
    if c = sep then acc.reverse :: splitCharAux sep rest []
    else splitCharAux sep rest (c :: acc)

/-- Rust `str::split(sep)` for a one-character separator: splits at every
occurrence and keeps empty pieces; splitting the empty string yields one
empty piece. -/
def rustSplit (s : String) (sep : Char) : List String :=
  (splitCharAux sep s.data []).map List.asString

/-- Rust `str::len()`: the UTF-8 byte length of the string. -/
def strByteLen (s : String) : Nat :=
  s.data.foldl (fun n c => n + c.utf8Size) 0

/-- Decimal parsing as done by Rust `from_str_radix(s, 10)` and
`parse::<uN>()` for unsigned types, before the width bound is applied: an
optional leading `+` (a leading `-` is rejected for unsigned types)
followed by one or more ASCII digits gives the numeric value, anything
else is `none`. -/
def digitsVal (l : List Char) : Nat :=
  l.foldl (fun n c => n * 10 + (c.toNat - 48)) 0

def parseDigits (s : String) : Option Nat :=
  match s.data with
  | [] => none
  | c :: rest =>
    if c = '+' then
      if rest ≠ [] ∧ rest.all Char.isDigit then some (digitsVal rest) else none
    else
      if c.isDigit ∧ rest.all Char.isDigit then some (digitsVal (c :: rest)) else none

/-- Rust `s.parse::<uN>()` for an unsigned width with modulus `bound`:
digit parsing plus the range check (out-of-range input is an `Err`). -/
def parseBounded (bound : Nat) (s : String) : Option Nat :=
  match parseDigits s with
  | some n => if n < bound then some n else none
  | none => none

/-- ASCII whitespace, as stripped by WHATWG forgiving-base64. -/
def isAsciiWhitespace (c : Char) : Bool :=
  c.toNat = 9 ∨ c.toNat = 10 ∨ c.toNat = 12 ∨ c.toNat = 13 ∨ c.toNat = 32

/-- Value of one character in the standard base64 alphabet. -/
def b64Val (c : Char) : Option Nat :=
  if 'A' ≤ c ∧ c ≤ 'Z' then some (c.toNat - 65)
  else if 'a' ≤ c ∧ c ≤ 'z' then some (c.toNat - 71)
  else if '0' ≤ c ∧ c ≤ '9' then some (c.toNat + 4)
  else if c = '+' then some 62
  else if c = '/' then some 63
  else none

/-- Reassemble 6-bit groups into bytes; a final group of two or three
characters contributes one or two bytes, a lone trailing character is an
error (forgiving-base64 rejects a remainder of one). -/
def b64Chunks : List Nat → Option (List Nat)
  | [] => some []
  | [_] => none
  | [a, b] => some [a * 4 + b / 16]
  | [a, b, c] => some [a * 4 + b / 16, (b % 16) * 16 + c / 4]
  | a :: b :: c :: d :: rest =>
    match b64Chunks rest with
    | some bytes =>
      some ((a * 4 + b / 16) :: ((b % 16) * 16 + c / 4) :: ((c % 4) * 64 + d) :: bytes)
    | none => none

/-- Remove one trailing padding character, when present. -/
def stripTrailingEq (cs : List Char) : List Char :=
  match cs.reverse with
  | c :: rest => if c = '=' then rest.reverse else cs
  | [] => cs

/-- WHATWG forgiving-base64 decode, the semantics of
`base64_simd::forgiving_decode_to_vec`: strip ASCII whitespace, strip up to
two trailing padding characters when the length is a multiple of four,
reject a remainder of one, then decode the 6-bit groups. -/
def forgivingDecode (s : String) : Option (List Nat) :=
  let cs := s.data.filter (fun c => ¬ isAsciiWhitespace c)
  let cs := if cs.length % 4 = 0 then stripTrailingEq (stripTrailingEq cs) else cs
  if cs.length % 4 = 1 then none
  else
    match cs.mapM b64Val with
    | some vals => b64Chunks vals
    | none => none

/-- UTF-8 decode of a byte list, validating continuation bytes, overlong
encodings, surrogates and the U+10FFFF bound (Rust `String::from_utf8`). -/
def utf8Decode : List Nat → Option (List Char)
  | [] => some []
  | b :: rest =>
    if b < 128 then
      match utf8Decode rest with
      | some cs => some (Char.ofNat b :: cs)
      | none => none
    else if b < 194 then none
    else if b < 224 then
      match rest with
      | b2 :: rest2 =>
        if 128 ≤ b2 ∧ b2 < 192 then
          match utf8Decode rest2 with
          | some cs => some (Char.ofNat ((b - 192) * 64 + (b2 - 128)) :: cs)
          | none => none
        else none
      | [] => none
    else if b < 240 then
      match rest with
      | b2 :: b3 :: rest3 =>
        if 128 ≤ b2 ∧ b2 < 192 ∧ 128 ≤ b3 ∧ b3 < 192 then
          let cp := (b - 224) * 4096 + (b2 - 128) * 64 + (b3 - 128)
          if 2048 ≤ cp ∧ ¬ (55296 ≤ cp ∧ cp ≤ 57343) then
            match utf8Decode rest3 with
            | some cs => some (Char.ofNat cp :: cs)
            | none => none
          else none
        else none
      | _ => none
    else if b < 245 then
      match rest with
      | b2 :: b3 :: b4 :: rest4 =>
        if 128 ≤ b2 ∧ b2 < 192 ∧ 128 ≤ b3 ∧ b3 < 192 ∧ 128 ≤ b4 ∧ b4 < 192 then
          let cp := (b - 240) * 262144 + (b2 - 128) * 4096 + (b3 - 128) * 64 + (b4 - 128)
          if 65536 ≤ cp ∧ cp ≤ 1114111 then
            match utf8Decode rest4 with
            | some cs => some (Char.ofNat cp :: cs)
            | none => none
          else none
        else none
      | _ => none
    else none

/-- Rust `String::from_utf8` on a byte vector, as a Lean string. -/
def utf8ToString (bytes : List Nat) : Option String :=
  match utf8Decode bytes with
  | some cs => some cs.asString
  | none => none

/-! ### Bucket classifier (src/buckets.rs) -/

/-- HTTP methods, as compared by the classifier. -/
inductive Method
  | GET | POST | PUT | DELETE | PATCH | HEAD | OPTIONS
  deriving BEq, DecidableEq, Repr

/-- Resource families from the first path segment (src/buckets.rs). -/
inductive Resources
  | Channels | Guilds | Webhooks | Invites | Interactions | OAuth2 | None
  deriving BEq, DecidableEq, Repr

/-- `Resources::from_str` (src/buckets.rs). -/
def Resources.from_str (s : String) : Resources :=
  match s with
  | "channels" => .Channels
  | "guilds" => .Guilds
  | "webhooks" => .Webhooks
  | "invites" => .Invites
  | "interactions" => .Interactions
  | "oauth2" => .OAuth2
  | _ => .None

/-- Failure modes of the embedded Rust functions: a returned
`ProxyError::InvalidRequest`, or a Rust panic. -/
inductive Failure
  | invalidRequest (msg : String)
  | panicked (msg : String)
  deriving BEq, DecidableEq, Repr

/-- `is_snowflake` (src/buckets.rs): byte length strictly between 17 and
21 and every character numeric.  Rust's `char::is_numeric` covers the
Unicode Nd/Nl/No categories; it is embedded here as ASCII digits, which is
exact on ASCII strings — on a non-ASCII numeric segment the code calls
`from_str_radix(..).expect` and panics, a behaviour outside this embedding,
so the classifier-totality theorem below is restricted to ASCII
segments. -/
def is_snowflake (s : String) : Bool :=
  let length := strByteLen s
  17 < length && length < 21 && s.data.all Char.isDigit

/-- `get_snowflake_age_ms` (src/buckets.rs): `now - (snowflake >> 22)` in
wrapping u64 arithmetic, with no Discord-epoch offset added.  The release
build wraps on overflow, embedded as arithmetic modulo `2^64`. -/
def get_snowflake_age_ms (now snowflake : Nat) : Nat :=
  let timestamp := (snowflake % U64) >>> 22
  ((now % U64) + (U64 - timestamp)) % U64

/-- `is_interaction_webhook` (src/buckets.rs): a webhook token whose base64
decodes with prefix `interaction:` yields the id after the colon; decode or
UTF-8 failures are panics (`expect`). -/
def is_interaction_webhook (token : String) : Except String (Option String) :=
  if ¬ ("aW50ZXJhY3Rpb246".data.isPrefixOf token.data) then .ok none
  else
    match forgivingDecode token with
    | none => .error "Failed to decode base64 interaction data."
    | some bytes =>
      match utf8ToString bytes with
      | none => .error "Interaction data is not valid UTF-8."
      | some interaction_data =>
        match (rustSplit interaction_data ':').drop 1 with
        | [] => .ok none
        | interaction_id :: _ => .ok (some interaction_id)

/-- Bucket descriptor (src/buckets.rs `BucketInfo`). -/
structure BucketInfo where
  resource : Resources
  route_bucket : String
  route_display_bucket : String
  require_auth : Bool
  deriving BEq, DecidableEq, Repr

deriving instance DecidableEq for Except

/-- `BucketInfo::append`: push a segment onto both bucket strings. -/
def BucketInfo.append (b : BucketInfo) (segment : String) : BucketInfo :=
  { b with
    route_bucket := b.route_bucket ++ segment
    route_display_bucket := b.route_display_bucket ++ segment }

/-- `BucketInfo::append_hidden`: push a segment onto the internal bucket and
a replacement onto the display bucket. -/
def BucketInfo.append_hidden (b : BucketInfo) (segment replacement : String) : BucketInfo :=
  { b with
    route_bucket := b.route_bucket ++ segment
    route_display_bucket := b.route_display_bucket ++ replacement }

/-- The per-segment loop of `BucketInfo::new` over `path_segments[2..]`,
carrying the previous segment (`path_segments[i - 1]`).  A `break` or the
loop running out is `.ok`; an out-of-range `u64` parse or a failing
interaction-token decode is a panic. -/
def processLoop (method : Method) (now : Nat) :
    BucketInfo → String → List String → Except Failure BucketInfo
  | info, _, [] => .ok info
  | info, prev, seg :: rest =>
    if is_snowflake seg then
      if info.resource = .Guilds ∧ method = .DELETE ∧ prev = "messages" then
        match parseDigits seg with
        | none => .error (.panicked "Radix must be 10.")
        | some v =>
          if v < U64 then
            let message_age_ms := get_snowflake_age_ms now v
            if message_age_ms > 14 * 24 * 60 * 60 * 1000 then .ok (info.append "/!14d")
            else if message_age_ms < 10 then .ok (info.append "/!10s")
            else processLoop method now info seg rest
          else .error (.panicked "Radix must be 10.")
      else processLoop method now (info.append "/!*") seg rest
    else if info.resource = .Channels ∧ seg = "reactions" then
      if method = .PUT ∨ method = .DELETE then .ok (info.append "/reactions/!modify")
      else .ok (info.append "/reactions/!")
    else if strByteLen seg ≥ 64 then
      match (if info.resource = .Webhooks then is_interaction_webhook seg else .ok none) with
      | .error msg => .error (.panicked msg)
      | .ok (some interaction_id) =>
        processLoop method now (info.append_hidden ("/" ++ interaction_id) "/!interaction") seg rest
      | .ok none => processLoop method now (info.append "/!") seg rest
    else processLoop method now (info.append ("/" ++ seg)) seg rest

/-- The tail of `BucketInfo::new` after the major bucket is appended: stop
when at most two segments, otherwise run the per-segment loop over
`path_segments[2..]` with `path_segments[1]` as initial previous
segment. -/
def bucketFinish (method : Method) (now : Nat) (segs : List String) (b : BucketInfo) :
    Except Failure BucketInfo :=
  if segs.length ≤ 2 then .ok b
  else processLoop method now b (segs.getD 1 "") (segs.drop 2)

/-- The `major_bucket` match of `BucketInfo::new`, including its early
returns.  Vector indexing out of bounds is embedded as a panic. -/
def bucketMajor (method : Method) (now : Nat) (segs : List String) (info : BucketInfo) :
    Except Failure BucketInfo :=
  match info.resource with
  | .Invites => bucketFinish method now segs (info.append "invites/!")
  | .Channels =>
    if segs.length = 2 then .ok (info.append "channels/!")
    else
      match segs.get? 1 with
      | none => .error (.panicked "index out of bounds")
      | some s1 => bucketFinish method now segs (info.append ("channels/" ++ s1))
  | .Guilds =>
    if segs.length = 3 ∧ segs.getD 2 "" = "channels" then
      .ok (info.append "guilds/!*/channels")
    else if segs.length ≥ 2 then
      bucketFinish method now segs (info.append ("guilds/" ++ segs.getD 1 ""))
    else bucketFinish method now segs (info.append "guilds")
  | .Interactions =>
    if segs.length = 4 ∧ segs.getD 2 "" = "callback" then
      .ok (info.append ("interactions/" ++ segs.getD 1 "" ++ "/!/callback"))
    else
      match segs.get? 1 with
      | none => .error (.panicked "index out of bounds")
      | some s1 => bucketFinish method now segs (info.append ("interactions/" ++ s1))
  | _ =>
    if segs.length ≥ 2 then
      bucketFinish method now segs (info.append (segs.headD "" ++ "/" ++ segs.getD 1 ""))
    else bucketFinish method now segs (info.append (segs.headD ""))

/-- `BucketInfo::new` (src/buckets.rs).  `now` is the wall clock in unix
milliseconds, passed explicitly in place of `SystemTime::now()`. -/
def BucketInfo.new (method : Method) (path : String) (now : Nat) : Except Failure BucketInfo :=
  let path_segments := (rustSplit path '/').drop 3
  if path_segments.length = 0 then
    .error (.invalidRequest ("Invalid Path: " ++ path))
  else
    let resource := Resources.from_str (path_segments.headD "")
    let require_auth : Bool :=
      (resource == Resources.Webhooks && (rustSplit path '/').length != 2)
      || resource == Resources.OAuth2
      || resource == Resources.Interactions
    bucketMajor method now path_segments
      { resource, route_bucket := "", route_display_bucket := "", require_auth }

/-! ### Request descriptor (src/request.rs) -/

/-- `parse_headers` (src/request.rs).  The `Authorization` header is
`none` when absent.  Only values starting with `Bot ` are accepted; the
first dot-separated piece after the prefix is forgiving-base64 decoded to
the identity. -/
def parse_headers (authHeader : Option String) (require_auth : Bool) :
    Except Failure (Option (String × String)) :=
  match authHeader with
  | some token =>
    if ¬ ("Bot ".data.isPrefixOf token.data) then
      .error (.invalidRequest "Invalid Authorization header")
    else
      let base64_bot_id := (rustSplit (List.asString (token.data.drop 4)) '.').headD ""
      match forgivingDecode base64_bot_id with
      | none => .error (.invalidRequest "Invalid Authorization header")
      | some bytes =>
        match utf8ToString bytes with
        | none => .error (.invalidRequest "Invalid Authorization header")
        | some bot_id => .ok (some (bot_id, token))
  | none =>
    if require_auth then .ok none
    else .error (.invalidRequest "Missing Authorization header")

/-- The global coordination key `global:{id}` built by
`DiscordRequestInfo::new` (src/request.rs). -/
def global_id_redis_key (global_id : String) : String :=
  "global:\x7b" ++ global_id ++ "\x7d"

/-- The route coordination key built by `DiscordRequestInfo::new`
(src/request.rs): identity-prefixed when the global limit applies,
`route:{bucket}` otherwise. -/
def route_bucket_redis_key (uses_global_ratelimit : Bool)
    (global_id route_bucket : String) : String :=
  if uses_global_ratelimit then
    global_id_redis_key global_id ++ "-route:" ++ route_bucket
  else
    "route:\x7b" ++ route_bucket ++ "\x7d"

/-- Request descriptor (src/request.rs `DiscordRequestInfo`). -/
structure DiscordRequestInfo where
  global_id : String
  token : Option String
  global_id_redis_key : String
  resource : Resources
  uses_global_ratelimit : Bool
  route_bucket : String
  route_display_bucket : String
  route_bucket_redis_key : String
  require_auth : Bool
  deriving BEq, DecidableEq, Repr

/-- `DiscordRequestInfo::new` (src/request.rs). -/
def DiscordRequestInfo.new (method : Method) (path : String)
    (authHeader : Option String) (now : Nat) : Except Failure DiscordRequestInfo :=
  match BucketInfo.new method path now with
  | .error e => .error e
  | .ok bucket_info =>
    let can_ignore_auth : Bool :=
      (bucket_info.resource == Resources.Webhooks
        && (rustSplit bucket_info.route_bucket '/').length != 2)
      || bucket_info.resource == Resources.OAuth2
      || bucket_info.resource == Resources.Interactions
    let require_auth := ! can_ignore_auth
    match parse_headers authHeader require_auth with
    | .error e => .error e
    | .ok auth =>
      let global_id := match auth with | some (id, _) => id | none => "NoAuth"
      let token := match auth with | some (_, tok) => some tok | none => none
      let route_uses_global_ratelimit : Bool :=
        match bucket_info.resource with
        | .Webhooks => false
        | .Interactions => false
        | _ => true
      let uses_global_ratelimit := route_uses_global_ratelimit && global_id != "NoAuth"
      .ok {
        global_id
        token
        global_id_redis_key := DiscordProxy.global_id_redis_key global_id
        resource := bucket_info.resource
        uses_global_ratelimit
        route_bucket := bucket_info.route_bucket
        route_display_bucket := bucket_info.route_display_bucket
        route_bucket_redis_key :=
          DiscordProxy.route_bucket_redis_key uses_global_ratelimit global_id
            bucket_info.route_bucket
        require_auth }

/-! ### Combined admission script (src/redis.rs) and its interpretation
(src/proxy.rs) -/

/-- The four store entries read or written by the combined global+route
admission script: the global limit record, the global count, the route
limit record and the route count.  `none` is an absent key. -/
structure ScriptState where
  gLimit : Option Nat
  gCount : Option Nat
  rLimit : Option Nat
  rCount : Option Nat
  deriving BEq, DecidableEq, Repr

/-- Numeric value of a counter entry: an absent key counts as zero. -/
def countVal : Option Nat → Nat
  | none => 0
  | some v => v

/-- Redis `INCR`: create-at-one on an absent key, returns the new value. -/
def incrVal (v : Option Nat) : Nat := countVal v + 1

/-- `RedisClient::check_global_and_route_ratelimits` (src/redis.rs): the
Lua admission script as a pure state transformer.  The result is the
returned pair (Lua `false` embedded as `none`) together with the
post-script store state. -/
def check_global_and_route_ratelimits (s : ScriptState) :
    (Option Nat × Option Nat) × ScriptState :=
  match s.gLimit with
  | none => ((none, none), s)
  | some global_limit =>
    let global_count := incrVal s.gCount
    let s1 := { s with gCount := some global_count }
    if global_count ≥ global_limit then ((some 0, none), s1)
    else
      match s.rLimit with
      | none => ((some global_count, none), s1)
      | some route_limit =>
        if route_limit = 0 then ((some global_count, some 2), s1)
        else
          let route_count := incrVal s.rCount
          let s2 := { s1 with rCount := some route_count }
          if route_count ≥ route_limit then
            let decremented := global_count - 1
            let s3 := { s2 with
              gCount := if decremented = 0 then none else some decremented }
            ((some 1, some 0), s3)
          else ((some global_count, some route_count), s2)

/-- The terminal or diverted branch one iteration of
`is_global_or_bucket_ratelimited` (src/proxy.rs) takes on the script's
reply pair: a zero count is a denial, a missing entry diverts to the
lock-acquisition path, anything else proceeds. -/
inductive OldLoopStatus
  | GlobalRatelimited
  | RouteRatelimited
  | OkNoLock
  | GlobalMissing
  | RouteMissing
  deriving BEq, DecidableEq, Repr

/-- Branch selection of `is_global_or_bucket_ratelimited` (src/proxy.rs)
on a reply pair. -/
def interpret_reply : Option Nat × Option Nat → OldLoopStatus
  | (some 0, _) => .GlobalRatelimited
  | (some _, some 0) => .RouteRatelimited
  | (some _, some _) => .OkNoLock
  | (some _, none) => .RouteMissing
  | (none, _) => .GlobalMissing

/-! ### Admission controller (src/ratelimits.rs) and synthetic responses
(src/responses.rs) -/

/-- `ratelimit_check_is_overloaded` (src/ratelimits.rs): a round trip
strictly over 50 ms counts as overloaded. -/
def ratelimit_check_is_overloaded (time_taken : Nat) : Bool :=
  time_taken > 50

/-- Retry causes (src/ratelimits.rs `RatelimitRetryCause`). -/
inductive RatelimitRetryCause
  | AwaitingGlobalLock
  | AwaitingRouteLock
  | HoldingGlobalLockAwaitingRouteLock
  | GlobalRatelimitDrifted
  | ProxyOverloaded (retry_count : Nat)
  deriving BEq, DecidableEq, Repr

/-- Admission statuses (src/ratelimits.rs `RatelimitStatus`). -/
inductive RatelimitStatus
  | ProxyOverloaded
  | RequiresRetry (cause : RatelimitRetryCause)
  | GlobalRatelimited (limit reset_at reset_after : Nat)
  | RouteRatelimited (limit reset_at reset_after : Nat)
  | Allowed (holds_global_lock holds_route_lock : Bool)
  deriving BEq, DecidableEq, Repr

/-- The tag-0 payload decoding of `RatelimitStatus::from`
(src/ratelimits.rs): `data[1].parse::<u16>().unwrap()` is the limit, the
reset values come from the slice boundary.  Indexing out of bounds and
parse failures are panics. -/
def tag0Status (global_slice_reset_at curr_time : Nat) (data : List String) :
    Except String RatelimitStatus :=
  match data.get? 1 with
  | none => .error "index out of bounds"
  | some s1 =>
    match parseBounded 65536 s1 with
    | none => .error "parse failure"
    | some limit =>
      .ok (.GlobalRatelimited limit global_slice_reset_at
        (global_slice_reset_at - curr_time))

/-- The tag-2 payload decoding of `RatelimitStatus::from`
(src/ratelimits.rs): limit (`u16`) and reset-at (`u128`) panic on absence
or parse failure; reset-after panics on absence but defaults to 0 when its
`u64` parse fails (the explicit `Err` arm in the source). -/
def tag2Status (data : List String) : Except String RatelimitStatus :=
  match data.get? 1 with
  | none => .error "index out of bounds"
  | some s1 =>
    match parseBounded 65536 s1 with
    | none => .error "parse failure"
    | some limit =>
      match data.get? 2 with
      | none => .error "index out of bounds"
      | some s2 =>
        match parseBounded U128 s2 with
        | none => .error "parse failure"
        | some reset_at =>
          match data.get? 3 with
          | none => .error "index out of bounds"
          | some s3 => .ok (.RouteRatelimited limit reset_at ((parseBounded U64 s3).getD 0))

/-- The tag-5 payload decoding of `RatelimitStatus::from`
(src/ratelimits.rs): the lock flags are string comparisons of `data[1]`
and `data[2]` against `"1"` — absence panics, no parsing happens. -/
def tag5Status (data : List String) : Except String RatelimitStatus :=
  match data.get? 1 with
  | none => .error "index out of bounds"
  | some s1 =>
    match data.get? 2 with
    | none => .error "index out of bounds"
    | some s2 => .ok (.Allowed (s1 == "1") (s2 == "1"))

/-- `RatelimitStatus::from` (src/ratelimits.rs).  `started_secs` and
`started_millis` embed `check_started_at_timestamp` and `check_time` the
measured round-trip duration; `data` is the script reply.  Rust panics
(`unwrap` on parse failures, out-of-bounds indexing, the unknown-tag
`panic!`) are `.error`. -/
def RatelimitStatus.fromData (overload_count : Nat) (started_secs started_millis : Nat)
    (check_time : Nat) (data : List String) : Except String RatelimitStatus :=
  let global_slice_reset_at := (started_secs + 1) * 1000
  let curr_time := started_millis + check_time
  if curr_time ≥ global_slice_reset_at then
    .ok (.RequiresRetry .GlobalRatelimitDrifted)
  else if ratelimit_check_is_overloaded check_time then
    if overload_count = 3 then .ok .ProxyOverloaded
    else .ok (.RequiresRetry (.ProxyOverloaded (overload_count + 1)))
  else
    match data.get? 0 with
    | none => .error "index out of bounds"
    | some s0 =>
      match parseBounded 256 s0 with
      | none => .error "parse failure"
      | some status_code =>
        match status_code with
        | 0 => tag0Status global_slice_reset_at curr_time data
        | 1 => .ok (.RequiresRetry .AwaitingGlobalLock)
        | 2 => tag2Status data
        | 3 => .ok (.RequiresRetry .AwaitingRouteLock)
        | 4 => .ok (.RequiresRetry .HoldingGlobalLockAwaitingRouteLock)
        | 5 => tag5Status data
        | _ => .error "Invalid ratelimit status code"

/-- One admission-script round trip observed by the `check_ratelimits`
loop: its start time (unix seconds and milliseconds), its measured
duration, and the script reply it returned. -/
structure Attempt where
  started_secs : Nat
  started_millis : Nat
  check_time : Nat
  data : List String
  deriving BEq, DecidableEq, Repr

/-- Result of the `check_ratelimits` loop (src/ratelimits.rs). -/
inductive CheckOutcome
  | overloaded
  | globalRatelimited (limit reset_at reset_after : Nat)
  | routeRatelimited (limit reset_at reset_after : Nat)
  | allowed (holds_global_lock holds_route_lock : Bool)
  | panicked (msg : String)
  | traceExhausted
  deriving BEq, DecidableEq, Repr

/-- The retry loop of `check_ratelimits` (src/ratelimits.rs), driven by a
trace of admission-script round trips.  Lock waits and global-limit
fetches are side effects that do not alter the loop state;
`overload_count` starts at zero and is incremented exactly when the status
is `RequiresRetry (ProxyOverloaded _)`. -/
def check_ratelimits_loop (overload_count : Nat) : List Attempt → CheckOutcome
  | [] => .traceExhausted
  | a :: rest =>
    match RatelimitStatus.fromData overload_count a.started_secs a.started_millis
        a.check_time a.data with
    | .error msg => .panicked msg
    | .ok .ProxyOverloaded => .overloaded
    | .ok (.RequiresRetry (.ProxyOverloaded _)) => check_ratelimits_loop (overload_count + 1) rest
    | .ok (.RequiresRetry _) => check_ratelimits_loop overload_count rest
    | .ok (.GlobalRatelimited l r ra) => .globalRatelimited l r ra
    | .ok (.RouteRatelimited l r ra) => .routeRatelimited l r ra
    | .ok (.Allowed hg hr) => .allowed hg hr

/-- Synthetic responses (src/responses.rs): a status code and headers.
`proxy_response_builder` stamps `x-sent-by-proxy: true` on every one. -/
structure SynthResponse where
  status : Nat
  headers : List (String × String)
  deriving BEq, DecidableEq, Repr

/-- Headers added by `proxy_response_builder` (src/responses.rs). -/
def proxy_response_headers : List (String × String) := [("x-sent-by-proxy", "true")]

/-- `responses::overloaded` (src/responses.rs): the 503 response. -/
def overloaded_response : SynthResponse :=
  { status := 503, headers := proxy_response_headers }

/-- Rust `str::replace(".", "")`: every dot removed. -/
def removeDots (s : String) : String :=
  List.asString (s.data.filter (fun c => c ≠ '.'))

/-- A present header is parsed (panicking on a non-numeric value), an
absent one defaults to zero — the `match … None => 0` arms of
`update_ratelimits` (src/ratelimits.rs). -/
def headerValOr0 (bound : Nat) (h : Option String) : Except String Nat :=
  match h with
  | some s =>
    match parseBounded bound s with
    | some n => .ok n
    | none => .error "parse failure"
  | none => .ok 0

/-- Like `headerValOr0` but deleting the decimal point first — the
`replace(".", "")` arms for `X-RateLimit-Reset` and
`X-RateLimit-Reset-After`. -/
def dottedHeaderValOr0 (bound : Nat) (h : Option String) : Except String Nat :=
  match h with
  | some s =>
    match parseBounded bound (removeDots s) with
    | some n => .ok n
    | none => .error "parse failure"
  | none => .ok 0

/-- The values `update_ratelimits` (src/ratelimits.rs) passes to the
spawned `set_route_expiry` call; `scheduled` records that the task was
spawned at all. -/
structure UpdateCall where
  limit : Nat
  remaining : Nat
  reset_at : Nat
  reset_after : Nat
  bucket_ttl : Nat
  scheduled : Bool
  deriving BEq, DecidableEq, Repr

/-- `update_ratelimits` (src/ratelimits.rs): parse the four rate-limit
headers of the upstream response (absent ones default to zero), pick the
bucket TTL, and unconditionally spawn the store update. -/
def update_ratelimits (xLimit xRemaining xReset xResetAfter : Option String)
    (resource : Resources) (config_bucket_ttl_ms : Nat) : Except String UpdateCall := do
  let limit ← headerValOr0 65536 xLimit
  let remaining ← headerValOr0 65536 xRemaining
  let reset_at ← dottedHeaderValOr0 U64 xReset
  let reset_after ← dottedHeaderValOr0 U64 xResetAfter
  let bucket_ttl := if resource = Resources.Interactions then 15 * 60 * 1000
    else config_bucket_ttl_ms
  return { limit, remaining, reset_at, reset_after, bucket_ttl, scheduled := true }

/-! ### Claim theorems -/

/-- C1: whenever the stored global limit is present and the incremented
global slice counter stays strictly below it, but the route record is
present with a positive limit whose count the increment exhausts, the
combined admission script returns the reply `(1, 0)` — which the proxy
loop reads as route-ratelimited — and the global slice counter's numeric
value after the script equals its value before it: the script's own
increment is compensated by the decrement on the denial path. -/
theorem c1_route_denial_compensates_global
    (s : ScriptState) (gl rl : Nat)
    (hgl : s.gLimit = some gl)
    (hpass : countVal s.gCount + 1 < gl)
    (hrl : s.rLimit = some rl) (hrlpos : 0 < rl)
    (hexh : rl ≤ countVal s.rCount + 1) :
    (check_global_and_route_ratelimits s).1 = (some 1, some 0)
    ∧ interpret_reply (check_global_and_route_ratelimits s).1 = .RouteRatelimited
    ∧ countVal (check_global_and_route_ratelimits s).2.gCount = countVal s.gCount := by
  rcases s with ⟨gL, gC, rL, rC⟩
  simp only at hgl hrl
  subst hgl; subst hrl
  unfold check_global_and_route_ratelimits
  simp only [incrVal, countVal] at hpass hexh ⊢
  rw [if_neg (by omega), if_neg (by omega), if_pos (by omega)]
  refine ⟨rfl, rfl, ?_⟩
  split <;> cases gC <;> simp_all

/-- C1 witness: a concrete store state — global limit 10 with count 4,
route limit 3 with count 2 — on which the admission script denies the
route and restores the global counter to 4. -/
theorem c1_witness :
    (check_global_and_route_ratelimits
        { gLimit := some 10, gCount := some 4, rLimit := some 3, rCount := some 2 }).1
      = (some 1, some 0)
    ∧ interpret_reply (check_global_and_route_ratelimits
        { gLimit := some 10, gCount := some 4, rLimit := some 3, rCount := some 2 }).1
      = .RouteRatelimited
    ∧ countVal (check_global_and_route_ratelimits
        { gLimit := some 10, gCount := some 4, rLimit := some 3, rCount := some 2 }).2.gCount
      = countVal (ScriptState.gCount
        { gLimit := some 10, gCount := some 4, rLimit := some 3, rCount := some 2 }) :=
  c1_route_denial_compensates_global
    { gLimit := some 10, gCount := some 4, rLimit := some 3, rCount := some 2 }
    10 3 rfl (by decide) rfl (by decide) (by decide)

/-- C2: the requires-credential test in `parse_headers` is inverted.  On
`GET /api/v10/channels/123/messages`, a route that requires credentials,
an absent Authorization header succeeds and assigns identity `NoAuth`
instead of failing with `InvalidRequest`; conversely on the webhook
sub-route `POST /api/v10/webhooks/1/tok`, where the spec permits an absent
header, the builder fails with `InvalidRequest`. -/
theorem c2_absent_auth_is_inverted :
    (DiscordRequestInfo.new .GET "/api/v10/channels/123/messages" none 0).map
        DiscordRequestInfo.global_id = .ok "NoAuth"
    ∧ DiscordRequestInfo.new .POST "/api/v10/webhooks/1/tok" none 0
        = .error (.invalidRequest "Missing Authorization header") := by
  decide

/-- C3 counterexample: two webhook requests whose derived identities are
`42` and `43` (credentials `Bot NDI=.x` and `Bot NDM=.x`) build the same
route coordination key `route:\x7bwebhooks/99/tok\x7d`, so the
coordination keys of distinct identities are not disjoint. -/
theorem c3_counterexample :
    (DiscordRequestInfo.new .POST "/api/v10/webhooks/99/tok" (some "Bot NDI=.x") 0).map
        (fun i => (i.global_id, i.route_bucket_redis_key))
      = .ok ("42", "route:\x7bwebhooks/99/tok\x7d")
    ∧ (DiscordRequestInfo.new .POST "/api/v10/webhooks/99/tok" (some "Bot NDM=.x") 0).map
        (fun i => (i.global_id, i.route_bucket_redis_key))
      = .ok ("43", "route:\x7bwebhooks/99/tok\x7d") := by
  decide

/-- Digit runs followed by a right brace delimit uniquely: two lists of
digit characters continued by a brace can only concatenate to the same
list when both parts agree. -/
theorem digits_then_rbrace_inj : ∀ (xs ys u v : List Char),
    (∀ c ∈ xs, c.isDigit = true) → (∀ c ∈ ys, c.isDigit = true) →
    xs ++ rbrace :: u = ys ++ rbrace :: v → xs = ys ∧ u = v := by
  intro xs
  induction xs with
  | nil =>
    intro ys u v _ hy h
    cases ys with
    | nil => simpa using h
    | cons y ys =>
      simp only [List.nil_append, List.cons_append, List.cons.injEq] at h
      have hd : y.isDigit = true := hy y (by simp)
      rw [← h.1] at hd
      exact absurd hd (by decide)
  | cons x xs ih =>
    intro ys u v hx hy h
    cases ys with
    | nil =>
      simp only [List.cons_append, List.nil_append, List.cons.injEq] at h
      have hd : x.isDigit = true := hx x (by simp)
      rw [h.1] at hd
      exact absurd hd (by decide)
    | cons y ys =>
      simp only [List.cons_append, List.cons.injEq] at h
      have hrec := ih ys u v (fun c hc => hx c (by simp [hc]))
        (fun c hc => hy c (by simp [hc])) h.2
      exact ⟨by rw [h.1, hrec.1], hrec.2⟩

/-- Character-list shape of the global key. -/
theorem global_key_data (id : String) :
    (global_id_redis_key id).data = "global:\x7b".data ++ (id.data ++ rbrace :: []) := by
  simp [global_id_redis_key, List.append_assoc]
  rfl

/-- Character-list shape of an identity-prefixed route key. -/
theorem route_key_data (id b : String) :
    (route_bucket_redis_key true id b).data
      = "global:\x7b".data ++ (id.data ++ rbrace :: ("-route:" ++ b).data) := by
  simp [route_bucket_redis_key, global_id_redis_key, List.append_assoc]
  rfl

/-- C3 amended: the disjointness holds for requests that use the global
rate limit and whose identities are strings of decimal digits (the shape
of decoded account ids): for distinct such identities, no global or
identity-prefixed route key of one equals a global or route key of the
other.  Requests outside the global limit (webhooks, interactions, or the
`NoAuth` identity) share identity-free `route:\x7b…\x7d` keys, as the
counterexample shows. -/
theorem c3_amended_digit_identities_disjoint (id1 id2 b1 b2 : String)
    (h1 : ∀ c ∈ id1.data, c.isDigit = true)
    (h2 : ∀ c ∈ id2.data, c.isDigit = true)
    (hne : id1 ≠ id2) :
    global_id_redis_key id1 ≠ global_id_redis_key id2
    ∧ global_id_redis_key id1 ≠ route_bucket_redis_key true id2 b2
    ∧ route_bucket_redis_key true id1 b1 ≠ global_id_redis_key id2
    ∧ route_bucket_redis_key true id1 b1 ≠ route_bucket_redis_key true id2 b2 := by
  refine ⟨?_, ?_, ?_, ?_⟩ <;> intro heq <;> apply hne <;>
    have hd := congrArg String.data heq
  · rw [global_key_data, global_key_data] at hd
    exact String.ext (digits_then_rbrace_inj _ _ _ _ h1 h2 (List.append_cancel_left hd)).1
  · rw [global_key_data, route_key_data] at hd
    exact String.ext (digits_then_rbrace_inj _ _ _ _ h1 h2 (List.append_cancel_left hd)).1
  · rw [route_key_data, global_key_data] at hd
    exact String.ext (digits_then_rbrace_inj _ _ _ _ h1 h2 (List.append_cancel_left hd)).1
  · rw [route_key_data, route_key_data] at hd
    exact String.ext (digits_then_rbrace_inj _ _ _ _ h1 h2 (List.append_cancel_left hd)).1

/-- C3 amended witness: identities 42 and 43 with a concrete bucket. -/
theorem c3_amended_witness :
    global_id_redis_key "42" ≠ global_id_redis_key "43"
    ∧ global_id_redis_key "42" ≠ route_bucket_redis_key true "43" "channels/1"
    ∧ route_bucket_redis_key true "42" "channels/1" ≠ global_id_redis_key "43"
    ∧ route_bucket_redis_key true "42" "channels/1"
        ≠ route_bucket_redis_key true "43" "channels/1" :=
  c3_amended_digit_identities_disjoint "42" "43" "channels/1" "channels/1"
    (by decide) (by decide) (by decide)

/-- A slow (>50 ms), non-drifted round trip with overload count other than
three produces the overload retry status. -/
theorem fromData_slow_retry (oc : Nat) (a : Attempt)
    (hslow : a.check_time > 50)
    (hdrift : a.started_millis + a.check_time < (a.started_secs + 1) * 1000)
    (hoc : oc ≠ 3) :
    RatelimitStatus.fromData oc a.started_secs a.started_millis a.check_time a.data
      = .ok (.RequiresRetry (.ProxyOverloaded (oc + 1))) := by
  unfold RatelimitStatus.fromData ratelimit_check_is_overloaded
  rw [if_neg (by omega), if_pos (by simp only [decide_eq_true_eq]; omega), if_neg hoc]

/-- A slow, non-drifted round trip at overload count three terminates with
`ProxyOverloaded`. -/
theorem fromData_slow_terminal (oc : Nat) (a : Attempt)
    (hslow : a.check_time > 50)
    (hdrift : a.started_millis + a.check_time < (a.started_secs + 1) * 1000)
    (hoc : oc = 3) :
    RatelimitStatus.fromData oc a.started_secs a.started_millis a.check_time a.data
      = .ok .ProxyOverloaded := by
  unfold RatelimitStatus.fromData ratelimit_check_is_overloaded
  rw [if_neg (by omega), if_pos (by simp only [decide_eq_true_eq]; omega), if_pos hoc]

/-- C4 counterexample: three consecutive admission round trips of 60 ms do
not make the controller return the overloaded response — the loop is still
retrying after them, and a fast fourth round trip reaches `Allowed`. -/
theorem c4_counterexample :
    check_ratelimits_loop 0
        [⟨0, 0, 60, []⟩, ⟨0, 0, 60, []⟩, ⟨0, 0, 60, []⟩] = .traceExhausted
    ∧ check_ratelimits_loop 0
        [⟨0, 0, 60, []⟩, ⟨0, 0, 60, []⟩, ⟨0, 0, 60, []⟩, ⟨0, 0, 1, ["5", "0", "0"]⟩]
      = .allowed false false := by decide

/-- C4 amended: four consecutive admission round trips, each strictly over
50 ms and none crossing the slice boundary, make the controller stop
retrying and return the 503 overloaded response carrying
x-sent-by-proxy: true (the first three are counted as retries, the fourth
terminates); a round trip of at most 50 ms is never counted as
overloaded. -/
theorem c4_amended_four_slow_roundtrips (a1 a2 a3 a4 : Attempt) (rest : List Attempt)
    (h1 : a1.check_time > 50 ∧ a1.started_millis + a1.check_time < (a1.started_secs + 1) * 1000)
    (h2 : a2.check_time > 50 ∧ a2.started_millis + a2.check_time < (a2.started_secs + 1) * 1000)
    (h3 : a3.check_time > 50 ∧ a3.started_millis + a3.check_time < (a3.started_secs + 1) * 1000)
    (h4 : a4.check_time > 50 ∧ a4.started_millis + a4.check_time < (a4.started_secs + 1) * 1000) :
    check_ratelimits_loop 0 (a1 :: a2 :: a3 :: a4 :: rest) = .overloaded
    ∧ overloaded_response = { status := 503, headers := [("x-sent-by-proxy", "true")] }
    ∧ (∀ t, t ≤ 50 → ratelimit_check_is_overloaded t = false) := by
  refine ⟨?_, by decide, fun t ht => by
    simp only [ratelimit_check_is_overloaded, decide_eq_false_iff_not]; omega⟩
  have e1 := fromData_slow_retry 0 a1 h1.1 h1.2 (by omega)
  have e2 := fromData_slow_retry 1 a2 h2.1 h2.2 (by omega)
  have e3 := fromData_slow_retry 2 a3 h3.1 h3.2 (by omega)
  have e4 := fromData_slow_terminal 3 a4 h4.1 h4.2 rfl
  simp [check_ratelimits_loop, e1, e2, e3, e4]

/-- C4 witness: four concrete 60 ms round trips end in the overloaded
outcome. -/
theorem c4_witness :
    check_ratelimits_loop 0
        [⟨0, 0, 60, []⟩, ⟨0, 0, 60, []⟩, ⟨0, 0, 60, []⟩, ⟨0, 0, 60, []⟩] = .overloaded :=
  (c4_amended_four_slow_roundtrips ⟨0, 0, 60, []⟩ ⟨0, 0, 60, []⟩ ⟨0, 0, 60, []⟩ ⟨0, 0, 60, []⟩
    [] (by decide) (by decide) (by decide) (by decide)).1

/-- C9 counterexample: a tag-5 reply with non-numeric payload strings
returns `Allowed` without panicking, and a tag-2 reply with a non-numeric
fourth element returns `RouteRatelimited` with reset-after defaulted to
zero, refuting that every absent-or-non-numeric payload for tags 0, 2, 5
panics. -/
theorem c9_counterexample :
    RatelimitStatus.fromData 0 0 0 0 ["5", "x", "y"] = .ok (.Allowed false false)
    ∧ RatelimitStatus.fromData 0 0 0 0 ["2", "7", "8", "zz"]
      = .ok (.RouteRatelimited 7 8 0) := by decide

/-- On a non-drifted, not-overloaded round trip whose first reply element
parses to tag `v`, the decoder dispatches on `v` exactly as the source's
`match`. -/
theorem fromData_parse_path (oc ss sm ct : Nat) (s0 : String) (rest : List String) (v : Nat)
    (hdrift : sm + ct < (ss + 1) * 1000) (hfast : ct ≤ 50)
    (hparse : parseBounded 256 s0 = some v) :
    RatelimitStatus.fromData oc ss sm ct (s0 :: rest)
      = if v = 0 then tag0Status ((ss + 1) * 1000) (sm + ct) (s0 :: rest)
        else if v = 1 then .ok (.RequiresRetry .AwaitingGlobalLock)
        else if v = 2 then tag2Status (s0 :: rest)
        else if v = 3 then .ok (.RequiresRetry .AwaitingRouteLock)
        else if v = 4 then .ok (.RequiresRetry .HoldingGlobalLockAwaitingRouteLock)
        else if v = 5 then tag5Status (s0 :: rest)
        else .error "Invalid ratelimit status code" := by
  unfold RatelimitStatus.fromData ratelimit_check_is_overloaded
  rw [if_neg (by omega), if_neg (by simp only [decide_eq_true_eq]; omega)]
  simp only [List.get?_cons_zero, hparse]
  rcases v with _ | _ | _ | _ | _ | _ | w <;> rfl

/-- A first reply element that fails the u8 parse panics. -/
theorem fromData_parse_fail (oc ss sm ct : Nat) (s0 : String) (rest : List String)
    (hdrift : sm + ct < (ss + 1) * 1000) (hfast : ct ≤ 50)
    (hparse : parseBounded 256 s0 = none) :
    RatelimitStatus.fromData oc ss sm ct (s0 :: rest) = .error "parse failure" := by
  unfold RatelimitStatus.fromData ratelimit_check_is_overloaded
  rw [if_neg (by omega), if_neg (by simp only [decide_eq_true_eq]; omega)]
  simp only [List.get?_cons_zero, hparse]

/-- Stepping equation for the tag-0 decoder on a reply with a payload
element. -/
theorem tag0Status_cons (g c : Nat) (s0 s1 : String) (rest : List String) :
    tag0Status g c (s0 :: s1 :: rest)
      = match parseBounded 65536 s1 with
        | none => .error "parse failure"
        | some limit => .ok (.GlobalRatelimited limit g (g - c)) := rfl

/-- Stepping equation for the tag-2 decoder on a reply with at least one
payload element. -/
theorem tag2Status_cons2 (s0 s1 : String) (rest : List String) :
    tag2Status (s0 :: s1 :: rest)
      = match parseBounded 65536 s1 with
        | none => .error "parse failure"
        | some limit =>
          match rest.get? 0 with
          | none => .error "index out of bounds"
          | some s2 =>
            match parseBounded U128 s2 with
            | none => .error "parse failure"
            | some reset_at =>
              match rest.get? 1 with
              | none => .error "index out of bounds"
              | some s3 =>
                .ok (.RouteRatelimited limit reset_at ((parseBounded U64 s3).getD 0)) := rfl

/-- Stepping equation for the tag-2 decoder on a reply with exactly one
payload element. -/
theorem tag2Status_two (s0 s1 : String) :
    tag2Status [s0, s1]
      = match parseBounded 65536 s1 with
        | none => .error "parse failure"
        | some _ => .error "index out of bounds" := rfl

/-- Stepping equation for the tag-2 decoder on a reply with exactly two
payload elements. -/
theorem tag2Status_three (s0 s1 s2 : String) :
    tag2Status [s0, s1, s2]
      = match parseBounded 65536 s1 with
        | none => .error "parse failure"
        | some _ =>
          match parseBounded U128 s2 with
          | none => .error "parse failure"
          | some _ => .error "index out of bounds" := rfl

/-- Stepping equation for the tag-2 decoder on a reply with at least two
payload elements. -/
theorem tag2Status_cons3 (s0 s1 s2 : String) (rest : List String) :
    tag2Status (s0 :: s1 :: s2 :: rest)
      = match parseBounded 65536 s1 with
        | none => .error "parse failure"
        | some limit =>
          match parseBounded U128 s2 with
          | none => .error "parse failure"
          | some reset_at =>
            match rest.get? 0 with
            | none => .error "index out of bounds"
            | some s3 =>
              .ok (.RouteRatelimited limit reset_at ((parseBounded U64 s3).getD 0)) := rfl

/-- C9 amended: under a non-drifted, not-overloaded round trip, the
admission-reply decoder panics exactly when: the reply is empty; its first
element fails the u8 parse (non-numeric or at least 256 — parsing is
Rust's unsigned parse, ASCII digits with an optional leading plus); the
parsed tag is 6 or more; or, for tags 0, 2 and 5, a required payload
element is absent, or tag 0's limit or tag 2's limit or reset-at fails its
parse.  Tags 1, 3 and 4 read no payload; tag 2's reset-after defaults to 0
when its u64 parse fails; tag 5 compares its payload strings to "1"
without parsing — none of those panic. -/
theorem c9_amended_panic_conditions (oc ss sm ct : Nat)
    (hdrift : sm + ct < (ss + 1) * 1000) (hfast : ct ≤ 50) :
    (RatelimitStatus.fromData oc ss sm ct []).isOk = false
    ∧ (∀ s0 rest, parseBounded 256 s0 = none →
        (RatelimitStatus.fromData oc ss sm ct (s0 :: rest)).isOk = false)
    ∧ (∀ s0 v rest, parseBounded 256 s0 = some v → 6 ≤ v →
        (RatelimitStatus.fromData oc ss sm ct (s0 :: rest)).isOk = false)
    ∧ (∀ s0, parseBounded 256 s0 = some 0 →
        (RatelimitStatus.fromData oc ss sm ct [s0]).isOk = false)
    ∧ (∀ s0 s1 rest, parseBounded 256 s0 = some 0 → parseBounded 65536 s1 = none →
        (RatelimitStatus.fromData oc ss sm ct (s0 :: s1 :: rest)).isOk = false)
    ∧ (∀ s0 s1 rest v1, parseBounded 256 s0 = some 0 → parseBounded 65536 s1 = some v1 →
        RatelimitStatus.fromData oc ss sm ct (s0 :: s1 :: rest)
          = .ok (.GlobalRatelimited v1 ((ss + 1) * 1000) ((ss + 1) * 1000 - (sm + ct))))
    ∧ (∀ s0 rest, parseBounded 256 s0 = some 1 →
        RatelimitStatus.fromData oc ss sm ct (s0 :: rest)
          = .ok (.RequiresRetry .AwaitingGlobalLock))
    ∧ (∀ s0, parseBounded 256 s0 = some 2 →
        (RatelimitStatus.fromData oc ss sm ct [s0]).isOk = false)
    ∧ (∀ s0 s1, parseBounded 256 s0 = some 2 →
        (RatelimitStatus.fromData oc ss sm ct [s0, s1]).isOk = false)
    ∧ (∀ s0 s1 s2, parseBounded 256 s0 = some 2 →
        (RatelimitStatus.fromData oc ss sm ct [s0, s1, s2]).isOk = false)
    ∧ (∀ s0 s1 rest, parseBounded 256 s0 = some 2 → parseBounded 65536 s1 = none →
        (RatelimitStatus.fromData oc ss sm ct (s0 :: s1 :: rest)).isOk = false)
    ∧ (∀ s0 s1 s2 rest v1, parseBounded 256 s0 = some 2 → parseBounded 65536 s1 = some v1 →
        parseBounded U128 s2 = none →
        (RatelimitStatus.fromData oc ss sm ct (s0 :: s1 :: s2 :: rest)).isOk = false)
    ∧ (∀ s0 s1 s2 s3 rest v1 v2, parseBounded 256 s0 = some 2 →
        parseBounded 65536 s1 = some v1 → parseBounded U128 s2 = some v2 →
        RatelimitStatus.fromData oc ss sm ct (s0 :: s1 :: s2 :: s3 :: rest)
          = .ok (.RouteRatelimited v1 v2 ((parseBounded U64 s3).getD 0)))
    ∧ (∀ s0 rest, parseBounded 256 s0 = some 3 →
        RatelimitStatus.fromData oc ss sm ct (s0 :: rest)
          = .ok (.RequiresRetry .AwaitingRouteLock))
    ∧ (∀ s0 rest, parseBounded 256 s0 = some 4 →
        RatelimitStatus.fromData oc ss sm ct (s0 :: rest)
          = .ok (.RequiresRetry .HoldingGlobalLockAwaitingRouteLock))
    ∧ (∀ s0, parseBounded 256 s0 = some 5 →
        (RatelimitStatus.fromData oc ss sm ct [s0]).isOk = false)
    ∧ (∀ s0 s1, parseBounded 256 s0 = some 5 →
        (RatelimitStatus.fromData oc ss sm ct [s0, s1]).isOk = false)
    ∧ (∀ s0 a b rest, parseBounded 256 s0 = some 5 →
        RatelimitStatus.fromData oc ss sm ct (s0 :: a :: b :: rest)
          = .ok (.Allowed (a == "1") (b == "1"))) := by
  refine ⟨?_, ?_, ?_, ?_, ?_, ?_, ?_, ?_, ?_, ?_, ?_, ?_, ?_, ?_, ?_, ?_, ?_, ?_⟩
  · unfold RatelimitStatus.fromData ratelimit_check_is_overloaded
    rw [if_neg (by omega), if_neg (by simp only [decide_eq_true_eq]; omega)]
    rfl
  · intro s0 rest h
    rw [fromData_parse_fail oc ss sm ct s0 rest hdrift hfast h]
    rfl
  · intro s0 v rest h hv
    rw [fromData_parse_path oc ss sm ct s0 rest v hdrift hfast h]
    obtain ⟨w, rfl⟩ : ∃ w, v = w + 6 := ⟨v - 6, by omega⟩
    rfl
  · intro s0 h
    rw [fromData_parse_path oc ss sm ct s0 [] 0 hdrift hfast h]
    rfl
  · intro s0 s1 rest h h1
    rw [fromData_parse_path oc ss sm ct s0 (s1 :: rest) 0 hdrift hfast h,
      tag0Status_cons, h1]
    rfl
  · intro s0 s1 rest v1 h h1
    rw [fromData_parse_path oc ss sm ct s0 (s1 :: rest) 0 hdrift hfast h,
      tag0Status_cons, h1]
    rfl
  · intro s0 rest h
    rw [fromData_parse_path oc ss sm ct s0 rest 1 hdrift hfast h]
    rfl
  · intro s0 h
    rw [fromData_parse_path oc ss sm ct s0 [] 2 hdrift hfast h]
    rfl
  · intro s0 s1 h
    rw [fromData_parse_path oc ss sm ct s0 [s1] 2 hdrift hfast h, tag2Status_two]
    cases parseBounded 65536 s1 <;> rfl
  · intro s0 s1 s2 h
    rw [fromData_parse_path oc ss sm ct s0 [s1, s2] 2 hdrift hfast h, tag2Status_three]
    cases parseBounded 65536 s1
    · rfl
    · cases parseBounded U128 s2 <;> rfl
  · intro s0 s1 rest h h1
    rw [fromData_parse_path oc ss sm ct s0 (s1 :: rest) 2 hdrift hfast h,
      tag2Status_cons2, h1]
    rfl
  · intro s0 s1 s2 rest v1 h h1 h2
    rw [fromData_parse_path oc ss sm ct s0 (s1 :: s2 :: rest) 2 hdrift hfast h,
      tag2Status_cons3, h1, h2]
    rfl
  · intro s0 s1 s2 s3 rest v1 v2 h h1 h2
    rw [fromData_parse_path oc ss sm ct s0 (s1 :: s2 :: s3 :: rest) 2 hdrift hfast h,
      tag2Status_cons3, h1, h2]
    rfl
  · intro s0 rest h
    rw [fromData_parse_path oc ss sm ct s0 rest 3 hdrift hfast h]
    rfl
  · intro s0 rest h
    rw [fromData_parse_path oc ss sm ct s0 rest 4 hdrift hfast h]
    rfl
  · intro s0 h
    rw [fromData_parse_path oc ss sm ct s0 [] 5 hdrift hfast h]
    rfl
  · intro s0 s1 h
    rw [fromData_parse_path oc ss sm ct s0 [s1] 5 hdrift hfast h]
    rfl
  · intro s0 a b rest h
    rw [fromData_parse_path oc ss sm ct s0 (a :: b :: rest) 5 hdrift hfast h]
    rfl

/-- C9 witness: at a concrete fast round trip, the empty reply panics; a
tag-2 reply whose reset-after is "+5" parses it to 5 (Rust's unsigned
parse accepts the plus); a tag-5 reply succeeds without parsing its
payloads. -/
theorem c9_witness :
    (RatelimitStatus.fromData 0 0 0 0 []).isOk = false
    ∧ RatelimitStatus.fromData 0 0 0 0 ["2", "7", "8", "+5"]
        = .ok (.RouteRatelimited 7 8 5)
    ∧ RatelimitStatus.fromData 0 0 0 0 ["5", "yes", "1"] = .ok (.Allowed false true) := by
  obtain ⟨h1, _, _, _, _, _, _, _, _, _, _, _, h13, _, _, _, _, h18⟩ :=
    c9_amended_panic_conditions 0 0 0 0 (by decide) (by decide)
  refine ⟨h1, ?_, ?_⟩
  · exact (h13 "2" "7" "8" "+5" [] 7 8 (by decide) (by decide) (by decide)).trans (by decide)
  · exact (h18 "5" "yes" "1" [] (by decide)).trans (by decide)

/-- Loop-safety of one path segment for a given resource family: snowflake
segments must parse within u64 (`from_str_radix(..).expect` panics
otherwise), and under `webhooks` a segment of 64 bytes or more carrying
the interaction base64 prefix must decode (`is_interaction_webhook`
panics otherwise). -/
def segSafe (resource : Resources) (s : String) : Prop :=
  (is_snowflake s = true → (parseDigits s).getD 0 < U64)
  ∧ (resource = Resources.Webhooks → strByteLen s ≥ 64 →
      (is_interaction_webhook s).isOk = true)

instance (resource : Resources) (s : String) : Decidable (segSafe resource s) := by
  unfold segSafe; infer_instance

/-- A snowflake-shaped segment always parses to some digit value. -/
theorem is_snowflake_parseDigits {s : String} (h : is_snowflake s = true) :
    ∃ v, parseDigits s = some v := by
  unfold is_snowflake at h
  simp only [Bool.and_eq_true, decide_eq_true_eq] at h
  obtain ⟨⟨h17, _⟩, hdig⟩ := h
  unfold parseDigits
  cases hd : s.data with
  | nil =>
    exfalso
    have : strByteLen s = 0 := by unfold strByteLen; rw [hd]; rfl
    omega
  | cons c rest =>
    rw [hd] at hdig
    simp only [List.all_cons, Bool.and_eq_true] at hdig
    have hplus : ¬ c = '+' := by
      intro he
      rw [he] at hdig
      exact absurd hdig.1 (by decide)
    simp only []
    rw [if_neg hplus, if_pos ⟨hdig.1, hdig.2⟩]
    exact ⟨_, rfl⟩

/-- The per-segment loop returns a descriptor on every loop-safe segment
list, and it preserves the resource family. -/
theorem processLoop_total (m : Method) (now : Nat) (res : Resources) :
    ∀ (segs : List String) (info : BucketInfo) (prev : String),
      info.resource = res →
      (∀ s ∈ segs, segSafe res s) →
      ∃ b, processLoop m now info prev segs = .ok b ∧ b.resource = res := by
  intro segs
  induction segs with
  | nil => exact fun info prev hres _ => ⟨info, rfl, hres⟩
  | cons seg rest ih =>
    intro info prev hres hsafe
    have hseg : segSafe res seg := hsafe seg (by simp)
    have hrest : ∀ s ∈ rest, segSafe res s := fun s hs => hsafe s (by simp [hs])
    unfold processLoop
    by_cases hsf : is_snowflake seg = true
    · rw [if_pos hsf]
      by_cases hguard : info.resource = .Guilds ∧ m = .DELETE ∧ prev = "messages"
      · rw [if_pos hguard]
        obtain ⟨v, hv⟩ := is_snowflake_parseDigits hsf
        have hlt : v < U64 := by
          have := hseg.1 hsf
          rwa [hv, Option.getD_some] at this
        simp only [hv]
        rw [if_pos hlt]
        by_cases hage : get_snowflake_age_ms now v > 14 * 24 * 60 * 60 * 1000
        · rw [if_pos hage]; exact ⟨_, rfl, hres⟩
        · rw [if_neg hage]
          by_cases hage2 : get_snowflake_age_ms now v < 10
          · rw [if_pos hage2]; exact ⟨_, rfl, hres⟩
          · rw [if_neg hage2]; exact ih info seg hres hrest
      · rw [if_neg hguard]; exact ih (info.append "/!*") seg hres hrest
    · rw [if_neg hsf]
      by_cases hrx : info.resource = .Channels ∧ seg = "reactions"
      · rw [if_pos hrx]
        by_cases hm : m = .PUT ∨ m = .DELETE
        · rw [if_pos hm]; exact ⟨_, rfl, hres⟩
        · rw [if_neg hm]; exact ⟨_, rfl, hres⟩
      · rw [if_neg hrx]
        by_cases hlen : strByteLen seg ≥ 64
        · rw [if_pos hlen]
          by_cases hweb : info.resource = .Webhooks
          · rw [if_pos hweb]
            have hok := hseg.2 (hres.symm.trans hweb) hlen
            cases hiw : is_interaction_webhook seg with
            | error e => rw [hiw] at hok; simp [Except.isOk, Except.toBool] at hok
            | ok o =>
              cases o with
              | none => exact ih (info.append "/!") seg hres hrest
              | some interaction_id =>
                exact ih (info.append_hidden ("/" ++ interaction_id) "/!interaction") seg
                  hres hrest
          · rw [if_neg hweb]; exact ih (info.append "/!") seg hres hrest
        · rw [if_neg hlen]; exact ih (info.append ("/" ++ seg)) seg hres hrest

/-- `bucketFinish` returns a descriptor on loop-safe segments, preserving
the resource. -/
theorem bucketFinish_total (m : Method) (now : Nat) (res : Resources)
    (segs : List String) (b : BucketInfo) (hres : b.resource = res)
    (hsafe : ∀ s ∈ segs, segSafe res s) :
    ∃ r, bucketFinish m now segs b = .ok r ∧ r.resource = res := by
  unfold bucketFinish
  by_cases hle : segs.length ≤ 2
  · rw [if_pos hle]; exact ⟨_, rfl, hres⟩
  · rw [if_neg hle]
    exact processLoop_total m now res (segs.drop 2) b _ hres
      (fun s hs => hsafe s (List.drop_subset 2 segs hs))

/-- `bucketMajor` returns a descriptor whenever the segments are loop-safe
and a `channels` or `interactions` route carries its second segment,
preserving the resource. -/
theorem bucketMajor_total (m : Method) (now : Nat) (res : Resources)
    (segs : List String) (info : BucketInfo) (hres : info.resource = res)
    (hsafe : ∀ s ∈ segs, segSafe res s)
    (hidx : res = .Channels ∨ res = .Interactions → 2 ≤ segs.length) :
    ∃ r, bucketMajor m now segs info = .ok r ∧ r.resource = res := by
  unfold bucketMajor
  rw [hres]
  split
  · exact bucketFinish_total m now _ segs (info.append "invites/!") hres hsafe
  · by_cases h2 : segs.length = 2
    · rw [if_pos h2]; exact ⟨_, rfl, hres⟩
    · rw [if_neg h2]
      have h1lt : 1 < segs.length := by have := hidx (Or.inl rfl); omega
      rw [List.get?_eq_get h1lt]
      exact bucketFinish_total m now _ segs
        (info.append ("channels/" ++ segs.get ⟨1, h1lt⟩)) hres hsafe
  · by_cases h3 : segs.length = 3 ∧ segs.getD 2 "" = "channels"
    · rw [if_pos h3]; exact ⟨_, rfl, hres⟩
    · rw [if_neg h3]
      by_cases h2 : segs.length ≥ 2
      · rw [if_pos h2]
        exact bucketFinish_total m now _ segs
          (info.append ("guilds/" ++ segs.getD 1 "")) hres hsafe
      · rw [if_neg h2]
        exact bucketFinish_total m now _ segs (info.append "guilds") hres hsafe
  · by_cases h4 : segs.length = 4 ∧ segs.getD 2 "" = "callback"
    · rw [if_pos h4]; exact ⟨_, rfl, hres⟩
    · rw [if_neg h4]
      have h1lt : 1 < segs.length := by have := hidx (Or.inr rfl); omega
      rw [List.get?_eq_get h1lt]
      exact bucketFinish_total m now _ segs
        (info.append ("interactions/" ++ segs.get ⟨1, h1lt⟩)) hres hsafe
  · by_cases h2 : segs.length ≥ 2
    · rw [if_pos h2]
      exact bucketFinish_total m now _ segs
        (info.append (segs.headD "" ++ "/" ++ segs.getD 1 "")) hres hsafe
    · rw [if_neg h2]
      exact bucketFinish_total m now _ segs (info.append (segs.headD "")) hres hsafe

/-- C5 counterexample: the classifier is not total — on the path
`/api/v10`, which has no segment after the version prefix, it returns the
`InvalidRequest` error rather than a descriptor. -/
theorem c5_counterexample :
    BucketInfo.new .GET "/api/v10" 0
      = .error (.invalidRequest "Invalid Path: /api/v10") := by decide

/-- C5 amended: the classifier fails with `InvalidRequest` precisely on
paths with no segment after the third slash-separated field; every other
path whose segments are all ASCII yields a descriptor, provided its
segments are loop-safe (in-range snowflakes, decodable interaction
tokens) and that a `channels` or `interactions` path carries a second
segment (the code indexes it unconditionally and would panic); the
descriptor's resource is the lookup of the first segment, so unrecognized
first segments yield resource `None`.  The ASCII restriction marks the
embedding's boundary: `is_snowflake` tests Rust's Unicode `is_numeric()`,
which on ASCII coincides exactly with the decimal-digit test used here,
but a snowflake-length segment of non-ASCII Unicode digits (e.g. nine
U+0660 characters, 18 bytes) is numeric to the code and panics its
radix-10 parse, so totality does not hold there. -/
theorem c5_amended_classifier_totality :
    (∀ (m : Method) (path : String) (now : Nat),
      ((rustSplit path '/').drop 3).length = 0 →
      BucketInfo.new m path now = .error (.invalidRequest ("Invalid Path: " ++ path)))
    ∧ (∀ (m : Method) (path : String) (now : Nat),
      ((rustSplit path '/').drop 3).length ≠ 0 →
      (∀ s ∈ (rustSplit path '/').drop 3, ∀ c ∈ s.data, c.toNat < 128) →
      (∀ s ∈ (rustSplit path '/').drop 3,
        segSafe (Resources.from_str (((rustSplit path '/').drop 3).headD "")) s) →
      ((Resources.from_str (((rustSplit path '/').drop 3).headD "") = .Channels
        ∨ Resources.from_str (((rustSplit path '/').drop 3).headD "") = .Interactions) →
        2 ≤ ((rustSplit path '/').drop 3).length) →
      ∃ b, BucketInfo.new m path now = .ok b
        ∧ b.resource = Resources.from_str (((rustSplit path '/').drop 3).headD "")) := by
  constructor
  · intro m path now h
    unfold BucketInfo.new
    simp only [h, reduceIte]
  · intro m path now hne _hascii hsafe hidx
    unfold BucketInfo.new
    simp only [hne, reduceIte]
    exact bucketMajor_total m now _ _ _ rfl hsafe hidx

/-- C5 witness: a path with an unrecognized first segment produces a
descriptor whose resource is `None`. -/
theorem c5_witness :
    (BucketInfo.new .GET "/api/v10/unknownthing/stuff" 0).isOk = true := by
  obtain ⟨b, hb, _⟩ := c5_amended_classifier_totality.2 .GET "/api/v10/unknownthing/stuff" 0
    (by decide) (by decide) (by decide) (by decide)
  rw [hb]; rfl

/-- The delete-message age rule inside the loop: a snowflake in the
message position of a guild DELETE whose embedded wrapping age exceeds 14
days collapses the bucket to suffix `/!14d` and stops the loop. -/
theorem processLoop_msg14d (now : Nat) (info : BucketInfo) (s : String) (rest : List String)
    (v : Nat) (hres : info.resource = .Guilds) (hsf : is_snowflake s = true)
    (hv : parseDigits s = some v) (hlt : v < U64)
    (hold : get_snowflake_age_ms now v > 14 * 24 * 60 * 60 * 1000) :
    processLoop .DELETE now info "messages" (s :: rest) = .ok (info.append "/!14d") := by
  unfold processLoop
  rw [if_pos hsf, if_pos ⟨hres, rfl, rfl⟩]
  simp only [hv]
  rw [if_pos hlt, if_pos hold]

/-- The delete-message age rule inside the loop: a snowflake in the
message position of a guild DELETE younger than 10 ms collapses the
bucket to suffix `/!10s` and stops the loop. -/
theorem processLoop_msg10s (now : Nat) (info : BucketInfo) (s : String) (rest : List String)
    (v : Nat) (hres : info.resource = .Guilds) (hsf : is_snowflake s = true)
    (hv : parseDigits s = some v) (hlt : v < U64)
    (hyoung : get_snowflake_age_ms now v < 10) :
    processLoop .DELETE now info "messages" (s :: rest) = .ok (info.append "/!10s") := by
  unfold processLoop
  rw [if_pos hsf, if_pos ⟨hres, rfl, rfl⟩]
  simp only [hv]
  rw [if_pos hlt, if_neg (by omega), if_pos hyoung]

/-- A plain segment — not a snowflake, not `reactions` under channels,
shorter than 64 bytes — is appended verbatim and the loop continues. -/
theorem processLoop_plain_seg (m : Method) (now : Nat) (info : BucketInfo)
    (prev seg : String) (rest : List String)
    (h1 : is_snowflake seg = false)
    (h2 : ¬ (info.resource = .Channels ∧ seg = "reactions"))
    (h3 : strByteLen seg < 64) :
    processLoop m now info prev (seg :: rest)
      = processLoop m now (info.append ("/" ++ seg)) seg rest := by
  conv_lhs => rw [processLoop.eq_def]
  simp only []
  rw [if_neg (by simp [h1]), if_neg h2, if_neg (by omega)]

/-- C6 counterexample: on `DELETE /api/v10/channels/5/messages/M` with M's
embedded timestamp 30 days in the past (at clock 1760000000000 ms), the
snowflake collapses to the generic `/!*`, not `/!14d` — the age rule does
not fire under `channels`, only under `guilds`. -/
theorem c6_counterexample :
    (BucketInfo.new .DELETE "/api/v10/channels/5/messages/7371103404032000000"
        1760000000000).map BucketInfo.route_bucket
      = .ok "channels/5/messages/!*" := by decide

/-- C6 amended: the message-age rule fires for guild routes (the code
requires resource `Guilds`): for `DELETE /api/v10/guilds/1/messages/M`,
a message more than 14 days old collapses to suffix `/!14d` and one less
than 10 ms old to `/!10s` (M = 7371103404032000000 embeds timestamp
1757408000000 ms, M = 7381975039979028480 embeds 1759999999995 ms). -/
theorem c6_amended_guild_delete_age_rule (now : Nat)
    (h14 : get_snowflake_age_ms now 7371103404032000000 > 14 * 24 * 60 * 60 * 1000)
    (h10 : get_snowflake_age_ms now 7381975039979028480 < 10) :
    (BucketInfo.new .DELETE "/api/v10/guilds/1/messages/7371103404032000000" now).map
        BucketInfo.route_bucket = .ok "guilds/1/messages/!14d"
    ∧ (BucketInfo.new .DELETE "/api/v10/guilds/1/messages/7381975039979028480" now).map
        BucketInfo.route_bucket = .ok "guilds/1/messages/!10s" := by
  constructor
  · have hsplit : rustSplit "/api/v10/guilds/1/messages/7371103404032000000" '/'
        = ["", "api", "v10", "guilds", "1", "messages", "7371103404032000000"] := by decide
    unfold BucketInfo.new
    rw [hsplit]
    simp only [List.drop, List.length, List.headD, Resources.from_str]
    rw [if_neg (by decide)]
    simp only [bucketMajor, bucketFinish]
    rw [if_neg (by decide), if_pos (by decide), if_neg (by decide)]
    simp only [List.getD, List.get?, List.drop]
    rw [processLoop_plain_seg _ _ _ _ _ _ (by decide) (by decide) (by decide)]
    rw [processLoop_msg14d now _ "7371103404032000000" [] 7371103404032000000 rfl
      (by decide) (by decide) (by decide) h14]
    decide
  · have hsplit : rustSplit "/api/v10/guilds/1/messages/7381975039979028480" '/'
        = ["", "api", "v10", "guilds", "1", "messages", "7381975039979028480"] := by decide
    unfold BucketInfo.new
    rw [hsplit]
    simp only [List.drop, List.length, List.headD, Resources.from_str]
    rw [if_neg (by decide)]
    simp only [bucketMajor, bucketFinish]
    rw [if_neg (by decide), if_pos (by decide), if_neg (by decide)]
    simp only [List.getD, List.get?, List.drop]
    rw [processLoop_plain_seg _ _ _ _ _ _ (by decide) (by decide) (by decide)]
    rw [processLoop_msg10s now _ "7381975039979028480" [] 7381975039979028480 rfl
      (by decide) (by decide) (by decide) h10]
    decide

/-- C6 witness: at clock 1760000000000 ms the two snowflakes above are 30
days and 5 ms old respectively, giving the `/!14d` and `/!10s` buckets. -/
theorem c6_witness :
    (BucketInfo.new .DELETE "/api/v10/guilds/1/messages/7371103404032000000"
        1760000000000).map BucketInfo.route_bucket = .ok "guilds/1/messages/!14d"
    ∧ (BucketInfo.new .DELETE "/api/v10/guilds/1/messages/7381975039979028480"
        1760000000000).map BucketInfo.route_bucket = .ok "guilds/1/messages/!10s" :=
  c6_amended_guild_delete_age_rule 1760000000000 (by decide) (by decide)

/-- C7 counterexample: the token `aW50ZXJhY3Rpb246MTIz` of the claim is 20
characters, below the 64-character threshold, so no hiding happens: both
the internal and the display route bucket keep the raw token — the display
bucket contains the token rather than `/!interaction`, and the internal
bucket does not contain the decoded id `/123`. -/
theorem c7_counterexample :
    (BucketInfo.new .POST "/api/v10/webhooks/1/aW50ZXJhY3Rpb246MTIz" 0).map
        (fun b => (b.route_bucket, b.route_display_bucket))
      = .ok ("webhooks/1/aW50ZXJhY3Rpb246MTIz", "webhooks/1/aW50ZXJhY3Rpb246MTIz") := by
  decide

/-- C7 amended: the interaction-token hiding applies to webhook tokens of
at least 64 characters: for the 64-character token decoding to
`interaction:123456789012345678901234567890123456`, the internal route
bucket keeps the decoded numeric id while the display bucket shows
`/!interaction` and never contains the token. -/
theorem c7_amended_long_interaction_token_hiding :
    (BucketInfo.new .POST
        "/api/v10/webhooks/1/aW50ZXJhY3Rpb246MTIzNDU2Nzg5MDEyMzQ1Njc4OTAxMjM0NTY3ODkwMTIzNDU2"
        0).map (fun b => (b.route_bucket, b.route_display_bucket))
      = .ok ("webhooks/1/123456789012345678901234567890123456",
             "webhooks/1/!interaction") := by
  decide

/-- C8 counterexample: with all four rate-limit headers absent, the store
update is still scheduled — with every value defaulted to zero — rather
than being skipped. -/
theorem c8_counterexample :
    update_ratelimits none none none none .Channels 86400000
      = .ok { limit := 0, remaining := 0, reset_at := 0, reset_after := 0,
              bucket_ttl := 86400000, scheduled := true } := by decide

/-- C8 amended: present `X-RateLimit-Reset` and `X-RateLimit-Reset-After`
values are converted by deleting the decimal point and parsing the digits;
a missing header defaults its value to zero, and the store update is
scheduled in every case — never skipped. -/
theorem c8_amended_defaults_and_dot_deletion (ls rs as bs : String) (lv rv av bv : Nat)
    (hl : parseBounded 65536 ls = some lv) (hr : parseBounded 65536 rs = some rv)
    (ha : parseBounded U64 (removeDots as) = some av)
    (hb : parseBounded U64 (removeDots bs) = some bv)
    (resource : Resources) (ttl : Nat) :
    update_ratelimits (some ls) (some rs) (some as) (some bs) resource ttl
      = .ok { limit := lv, remaining := rv, reset_at := av, reset_after := bv,
              bucket_ttl := if resource = Resources.Interactions then 900000 else ttl,
              scheduled := true }
    ∧ ∀ (res : Resources) (ttl2 : Nat), update_ratelimits none none none none res ttl2
      = .ok { limit := 0, remaining := 0, reset_at := 0, reset_after := 0,
              bucket_ttl := if res = Resources.Interactions then 900000 else ttl2,
              scheduled := true } := by
  constructor
  · simp [update_ratelimits, headerValOr0, dottedHeaderValOr0, hl, hr, ha, hb,
      Except.bind, bind, pure, Except.pure]
  · intro res ttl2
    simp [update_ratelimits, headerValOr0, dottedHeaderValOr0,
      Except.bind, bind, pure, Except.pure]

/-- C8 witness: concrete headers — `X-RateLimit-Reset: 1698765.432`
converts to 1698765432 ms by deleting the decimal point. -/
theorem c8_witness :
    update_ratelimits (some "10") (some "9") (some "1698765.432") (some "0.432")
        .Channels 86400000
      = .ok { limit := 10, remaining := 9, reset_at := 1698765432, reset_after := 432,
              bucket_ttl := 86400000, scheduled := true } := by
  have h := (c8_amended_defaults_and_dot_deletion "10" "9" "1698765.432" "0.432"
    10 9 1698765432 432 (by decide) (by decide) (by decide) (by decide)
    .Channels 86400000).1
  simpa using h

/-- C10: `get_snowflake_age_ms` computes `now - (snowflake >> 22)` in
wrapping u64 arithmetic with no epoch offset: when the embedded timestamp
is at most `now` it is the plain difference, and when the timestamp
exceeds `now` the subtraction wraps to `2^64 - (timestamp - now)`, which —
timestamps fitting in 42 bits — always exceeds the 14-day threshold and is
never below 10 ms, so the delete-message rule classifies such a snowflake
as `/!14d` rather than `/!10s`. -/
theorem c10_wrapping_age_classifies_14d (now snowflake : Nat)
    (h1 : snowflake < U64) (h2 : now < U64) :
    (snowflake >>> 22 ≤ now →
      get_snowflake_age_ms now snowflake = now - snowflake >>> 22)
    ∧ (now < snowflake >>> 22 →
      get_snowflake_age_ms now snowflake = U64 - (snowflake >>> 22 - now)
      ∧ get_snowflake_age_ms now snowflake > 14 * 24 * 60 * 60 * 1000
      ∧ ¬ get_snowflake_age_ms now snowflake < 10
      ∧ ∀ (info : BucketInfo) (s : String) (rest : List String),
          info.resource = .Guilds → is_snowflake s = true →
          parseDigits s = some snowflake →
          processLoop .DELETE now info "messages" (s :: rest)
            = .ok (info.append "/!14d")) := by
  have e : get_snowflake_age_ms now snowflake
      = ((now % U64) + (U64 - ((snowflake % U64) >>> 22))) % U64 := rfl
  rw [Nat.mod_eq_of_lt h1, Nat.mod_eq_of_lt h2] at e
  rw [Nat.shiftRight_eq_div_pow] at e
  have hU : U64 = 18446744073709551616 := by norm_num [U64]
  rw [hU] at e h1 h2
  have hp22 : (2 : Nat) ^ 22 = 4194304 := by norm_num
  rw [hp22] at e
  have hdiv : snowflake / 4194304 < 4398046511104 := by omega
  constructor
  · intro hle
    rw [Nat.shiftRight_eq_div_pow, hp22] at hle ⊢
    omega
  · intro hgt
    rw [Nat.shiftRight_eq_div_pow, hp22] at hgt
    have hwrap : get_snowflake_age_ms now snowflake
        = 18446744073709551616 - (snowflake / 4194304 - now) := by omega
    have hbig : get_snowflake_age_ms now snowflake > 14 * 24 * 60 * 60 * 1000 := by omega
    refine ⟨?_, hbig, by omega, ?_⟩
    · rw [hU, Nat.shiftRight_eq_div_pow, hp22]
      omega
    · intro info s rest hres hsf hv
      exact processLoop_msg14d now info s rest snowflake hres hsf hv (by rw [hU]; omega) hbig

/-- C10 witness: the 20-digit snowflake 18446744073705357312 embeds
timestamp `2^42 - 1`, in the future of clock 1760000000000 ms; its
wrapped age exceeds 14 days and the guild delete-message rule yields the
`/!14d` bucket. -/
theorem c10_witness :
    get_snowflake_age_ms 1760000000000 18446744073705357312
      = U64 - (18446744073705357312 >>> 22 - 1760000000000)
    ∧ get_snowflake_age_ms 1760000000000 18446744073705357312 > 14 * 24 * 60 * 60 * 1000
    ∧ processLoop .DELETE 1760000000000
        { resource := .Guilds, route_bucket := "guilds/1/messages",
          route_display_bucket := "guilds/1/messages", require_auth := false }
        "messages" ["18446744073705357312"]
      = .ok (BucketInfo.append
          { resource := .Guilds, route_bucket := "guilds/1/messages",
            route_display_bucket := "guilds/1/messages", require_auth := false } "/!14d") := by
  have h := (c10_wrapping_age_classifies_14d 1760000000000 18446744073705357312
    (by decide) (by decide)).2 (by decide)
  exact ⟨h.1, h.2.1, h.2.2.2 _ "18446744073705357312" [] rfl (by decide) (by decide)⟩

end DiscordProxy

